import Mathlib

/-!
# Verification of the research-agent scoping workflow

Shallow embedding of `src/research_agent_scope.py` and
`src/states/state_scope.py`: a two-node LangGraph workflow that first decides
whether the user's request needs clarification and, if not, transforms the
conversation into a research brief.

The external chat model is embedded as an oracle: a function from the rendered
prompt string to an optional structured response (`none` models a failed or
malformed model call, which the code does not catch).  The current date
(`get_today_str`) is a parameter.  The two prompt templates come from the
`prompts` module, which is not among the repository's source files; they are
modelled from the spec as templates with placeholders for the rendered
conversation text and the current date.
-/

namespace Scope

/-- Message roles used by the workflow: `HumanMessage` and `AIMessage`
(`langchain_core.messages`). -/
inductive Role where
  | human
  | ai
deriving DecidableEq, Repr

/-- A role-tagged message (content only; the code never sets ids or extra
fields on the messages it creates). -/
structure Message where
  role : Role
  content : String
deriving DecidableEq, Repr

/-- `get_buffer_string` from `langchain_core.messages`: flattens a message
list to "Human: ..." / "AI: ..." lines joined by newlines (default role
labels). -/
def role_label : Role → String
  | Role.human => "Human"
  | Role.ai => "AI"

/-- The flattened conversation text rendered into prompts
(`get_buffer_string(messages=state["messages"])`). -/
def get_buffer_string (msgs : List Message) : String :=
  String.intercalate "\n" (msgs.map fun m => role_label m.role ++ ": " ++ m.content)

/-- The structured-output schema `ClarifyWithUser` of `state_scope.py`. -/
structure ClarifyWithUser where
  need_clarification : Bool
  question : String
  verification : String
deriving DecidableEq, Repr

/-- The structured-output schema `ResearchQuestion` of `state_scope.py`. -/
structure ResearchQuestion where
  research_brief : String
deriving DecidableEq, Repr

/-- The `AgentState` of `state_scope.py`: `MessagesState` (the `messages`
field with the `add_messages` append reducer) extended with the research
coordination fields.  `research_brief` and `final_report` have no reducer and
may be unset (`none`); `supervisor_messages` uses `add_messages`; `raw_notes`
and `notes` use `operator.add`. -/
structure AgentState where
  messages : List Message
  research_brief : Option String
  supervisor_messages : List Message
  raw_notes : List String
  notes : List String
  final_report : Option String
deriving DecidableEq, Repr

/-- A node's returned state update (the dict a node returns, or the `update`
of a `Command`).  A missing key is the field's neutral value: `[]` for the
reducer-merged sequences, `none` for the overwrite fields. -/
structure StateUpdate where
  messages : List Message := []
  research_brief : Option String := none
  supervisor_messages : List Message := []
  raw_notes : List String := []
  notes : List String := []
  final_report : Option String := none
deriving DecidableEq, Repr

/-- LangGraph's merge of a node's update into the state: `add_messages`
appends the new messages (the code only ever adds fresh id-less messages, so
the id-matching branch of `add_messages` never fires), `operator.add`
concatenates, and the reducer-less fields are overwritten when the update
carries a value. -/
def apply_update (s : AgentState) (u : StateUpdate) : AgentState :=
  { messages := s.messages ++ u.messages
    research_brief := match u.research_brief with
      | none => s.research_brief
      | some b => some b
    supervisor_messages := s.supervisor_messages ++ u.supervisor_messages
    raw_notes := s.raw_notes ++ u.raw_notes
    notes := s.notes ++ u.notes
    final_report := match u.final_report with
      | none => s.final_report
      | some r => some r }

/-- `InMemoryRateLimiter` configuration (`langchain_core.rate_limiters`);
the float literals of the source are embedded as exact rationals. -/
structure InMemoryRateLimiter where
  requests_per_second : ℚ
  check_every_n_seconds : ℚ
deriving DecidableEq, Repr

/-- The module-level `rate_limiter` of `research_agent_scope.py`. -/
def rate_limiter : InMemoryRateLimiter :=
  { requests_per_second := (83 : ℚ) / 10
    check_every_n_seconds := (1 : ℚ) / 10 }

/-- The configuration `init_chat_model` is called with. -/
structure ModelConfig where
  model_name : String
  temperature : ℚ
  limiter : InMemoryRateLimiter
deriving DecidableEq, Repr

/-- The shared chat-model client: its fixed configuration plus its behaviour
under `with_structured_output` for each of the two schemas, embedded as
oracles from the rendered prompt to an optional structured response (`none` is
a failed call). -/
structure ChatModel where
  config : ModelConfig
  clarify_oracle : String → Option ClarifyWithUser
  brief_oracle : String → Option ResearchQuestion

/-- `init_chat_model(model="openai:gpt-4.1", temperature=0.0,
rate_limiter=rate_limiter)`: every client built by the module carries the one
fixed configuration with the module-level rate limiter attached. -/
def init_chat_model (clar : String → Option ClarifyWithUser)
    (brief : String → Option ResearchQuestion) : ChatModel :=
  { config :=
      { model_name := "openai:gpt-4.1"
        temperature := 0
        limiter := rate_limiter }
    clarify_oracle := clar
    brief_oracle := brief }

/-- Modelled from the spec: the prompt template
`clarify_with_user_instructions` comes from the `prompts` module, which is not
among the repository's source files; the spec describes it as a template with
placeholders for the rendered conversation text and the current date. -/
def clarify_with_user_instructions (messages date : String) : String :=
  "These are the messages exchanged so far with the user:\n" ++ messages ++
    "\nToday's date is " ++ date ++
    ". Decide whether a clarifying question is needed before research starts."

/-- Modelled from the spec: the prompt template
`transform_messages_into_research_topic_prompt` comes from the `prompts`
module, which is not among the repository's source files; the spec describes
it as a template with placeholders for the rendered conversation text and the
current date. -/
def transform_messages_into_research_topic_prompt (messages date : String) : String :=
  "Transform the following conversation into one self-contained research brief:\n" ++
    messages ++ "\nToday's date is " ++ date ++ "."

/-- The targets of the `Command` returned by `clarify_with_user`:
`Literal["write_research_brief", "__end__"]`. -/
inductive Goto where
  | write_research_brief_node
  | end_node
deriving DecidableEq, Repr

/-- `langgraph.types.Command`: a routing target plus a state update. -/
structure Command where
  goto : Goto
  update : StateUpdate
deriving DecidableEq, Repr

/-- The clarification decision node `clarify_with_user`: renders the
clarification prompt from the flattened conversation and the date, asks the
model for a `ClarifyWithUser` decision, then routes to `END` with the
question appended when clarification is needed, else to
`write_research_brief` with the verification appended.  `none` models the
uncaught failure of the model call. -/
def clarify_with_user (m : ChatModel) (date : String) (state : AgentState) :
    Option Command :=
  match m.clarify_oracle (clarify_with_user_instructions
      (get_buffer_string state.messages) date) with
  | none => none
  | some response =>
    if response.need_clarification then
      some { goto := Goto.end_node
             update := { messages := [Message.mk Role.ai response.question] } }
    else
      some { goto := Goto.write_research_brief_node
             update := { messages := [Message.mk Role.ai response.verification] } }

/-- The brief generation node `write_research_brief`: renders the transform
prompt from the flattened conversation and the date, asks the model for a
`ResearchQuestion`, and returns the update setting `research_brief` and
seeding `supervisor_messages` with one `HumanMessage` whose content is the
brief followed by a period (`f"{response.research_brief}."`). -/
def write_research_brief (m : ChatModel) (date : String) (state : AgentState) :
    Option StateUpdate :=
  match m.brief_oracle (transform_messages_into_research_topic_prompt
      (get_buffer_string state.messages) date) with
  | none => none
  | some response =>
    some { research_brief := some response.research_brief
           supervisor_messages :=
             [Message.mk Role.human (response.research_brief ++ ".")] }

/-- The initial internal state built from the graph input: the input schema
`AgentInputState` carries only `messages`, so every other field starts at its
neutral value. -/
def initial_state (input : List Message) : AgentState :=
  { messages := input
    research_brief := none
    supervisor_messages := []
    raw_notes := []
    notes := []
    final_report := none }

/-- The node names of the compiled graph. -/
def clarify_name : String := "clarify_with_user"

/-- The second node's name in the compiled graph. -/
def brief_name : String := "write_research_brief"

/-- The sequence of (node name, state update) pairs a completed invocation of
the compiled graph applies, in order: `START → clarify_with_user`, then either
`END` or `write_research_brief → END`, the second node reading the state with
the first node's update already merged.  `none` models a fatal invocation
failure (an uncaught model-call error at either node): no state is returned. -/
def scope_research_trace (m : ChatModel) (date : String) (input : List Message) :
    Option (List (String × StateUpdate)) :=
  match clarify_with_user m date (initial_state input) with
  | none => none
  | some cmd =>
    match cmd.goto with
    | Goto.end_node => some [(clarify_name, cmd.update)]
    | Goto.write_research_brief_node =>
      match write_research_brief m date (apply_update (initial_state input) cmd.update) with
      | none => none
      | some u => some [(clarify_name, cmd.update), (brief_name, u)]

/-- Folding a trace's updates into the initial state, in order. -/
def run_updates (input : List Message) (updates : List StateUpdate) : AgentState :=
  updates.foldl apply_update (initial_state input)

/-- The compiled workflow `scope_research` on a message-list input: the final
state of a completed invocation, or `none` when a model call fails. -/
def scope_research (m : ChatModel) (date : String) (input : List Message) :
    Option AgentState :=
  (scope_research_trace m date input).map fun tr => run_updates input (tr.map Prod.snd)

/-! ## Properties of the final state of an invocation -/

/-- The clarification-requested terminal shape: one assistant message was
appended to the input conversation and no research brief was produced. -/
def clarification_outcome (input : List Message) (s : AgentState) : Prop :=
  (∃ q, s.messages = input ++ [Message.mk Role.ai q]) ∧ s.research_brief = none

/-- The brief-produced terminal shape: one assistant message was appended to
the input conversation and a research brief was produced. -/
def brief_outcome (input : List Message) (s : AgentState) : Prop :=
  (∃ v, s.messages = input ++ [Message.mk Role.ai v]) ∧
    ∃ b, s.research_brief = some b

lemma initial_state_messages (input : List Message) :
    (initial_state input).messages = input := rfl

/-- Closed form of a whole invocation, by cases on the two oracle calls and
the clarification flag. -/
lemma scope_research_eq (m : ChatModel) (d : String) (input : List Message) :
    scope_research m d input =
      match m.clarify_oracle (clarify_with_user_instructions
          (get_buffer_string input) d) with
      | none => none
      | some resp =>
        if resp.need_clarification then
          some { messages := input ++ [Message.mk Role.ai resp.question]
                 research_brief := none
                 supervisor_messages := []
                 raw_notes := []
                 notes := []
                 final_report := none }
        else
          match m.brief_oracle (transform_messages_into_research_topic_prompt
              (get_buffer_string (input ++ [Message.mk Role.ai resp.verification])) d) with
          | none => none
          | some r =>
            some { messages := input ++ [Message.mk Role.ai resp.verification]
                   research_brief := some r.research_brief
                   supervisor_messages := [Message.mk Role.human (r.research_brief ++ ".")]
                   raw_notes := []
                   notes := []
                   final_report := none } := by
  cases ho : m.clarify_oracle (clarify_with_user_instructions
      (get_buffer_string input) d) with
  | none =>
    simp [scope_research, scope_research_trace, clarify_with_user,
      initial_state_messages, ho]
  | some resp =>
    cases hn : resp.need_clarification with
    | true =>
      simp [scope_research, scope_research_trace, clarify_with_user,
        initial_state_messages, ho, hn, run_updates, apply_update, initial_state]
    | false =>
      cases hb : m.brief_oracle (transform_messages_into_research_topic_prompt
          (get_buffer_string (input ++ [Message.mk Role.ai resp.verification])) d) with
      | none =>
        simp [scope_research, scope_research_trace, clarify_with_user,
          initial_state_messages, write_research_brief, ho, hn, hb,
          apply_update, initial_state]
      | some r =>
        simp [scope_research, scope_research_trace, clarify_with_user,
          initial_state_messages, write_research_brief, ho, hn, hb,
          run_updates, apply_update, initial_state]

/-- Closed form of the update trace of an invocation. -/
lemma scope_research_trace_eq (m : ChatModel) (d : String) (input : List Message) :
    scope_research_trace m d input =
      match m.clarify_oracle (clarify_with_user_instructions
          (get_buffer_string input) d) with
      | none => none
      | some resp =>
        if resp.need_clarification then
          some [(clarify_name,
            { messages := [Message.mk Role.ai resp.question] })]
        else
          match m.brief_oracle (transform_messages_into_research_topic_prompt
              (get_buffer_string (input ++ [Message.mk Role.ai resp.verification])) d) with
          | none => none
          | some r =>
            some [(clarify_name,
                    { messages := [Message.mk Role.ai resp.verification] }),
                  (brief_name,
                    { research_brief := some r.research_brief
                      supervisor_messages :=
                        [Message.mk Role.human (r.research_brief ++ ".")] })] := by
  cases ho : m.clarify_oracle (clarify_with_user_instructions
      (get_buffer_string input) d) with
  | none =>
    simp [scope_research_trace, clarify_with_user, initial_state_messages, ho]
  | some resp =>
    cases hn : resp.need_clarification with
    | true =>
      simp [scope_research_trace, clarify_with_user, initial_state_messages,
        ho, hn]
    | false =>
      cases hb : m.brief_oracle (transform_messages_into_research_topic_prompt
          (get_buffer_string (input ++ [Message.mk Role.ai resp.verification])) d) with
      | none =>
        simp [scope_research_trace, clarify_with_user, initial_state_messages,
          write_research_brief, ho, hn, hb, apply_update, initial_state]
      | some r =>
        simp [scope_research_trace, clarify_with_user, initial_state_messages,
          write_research_brief, ho, hn, hb, apply_update, initial_state]

/-- C3: when the clarification decision's `need_clarification` is true, the
workflow terminates with `research_brief` unset, `messages` grown by exactly
one assistant entry whose content is the decision's `question`, and every
other state field untouched. -/
theorem scope_clarification_path_final_state (m : ChatModel) (d : String)
    (input : List Message) (resp : ClarifyWithUser)
    (hc : m.clarify_oracle (clarify_with_user_instructions
      (get_buffer_string input) d) = some resp)
    (hn : resp.need_clarification = true) :
    scope_research m d input = some
      { messages := input ++ [Message.mk Role.ai resp.question]
        research_brief := none
        supervisor_messages := []
        raw_notes := []
        notes := []
        final_report := none } := by
  rw [scope_research_eq, hc]
  simp [hn]

/-- C7: the clarification decision node reads only the `messages` field of
the state — two states that agree on `messages` yield the same decision and
the same command, whatever their other fields hold. -/
theorem clarify_depends_only_on_messages (m : ChatModel) (d : String)
    (s₁ s₂ : AgentState) (h : s₁.messages = s₂.messages) :
    clarify_with_user m d s₁ = clarify_with_user m d s₂ := by
  unfold clarify_with_user
  rw [h]

/-- C8: the module's only outbound-call resource policy is the fixed
`InMemoryRateLimiter` with a request rate of 8.3 requests per second checked
every 0.1 seconds, attached (through `init_chat_model`) to the configuration
of every client the module builds — in particular the one shared `model` both
nodes call. -/
theorem rate_limiter_configured :
    rate_limiter.requests_per_second = (83 : ℚ) / 10 ∧
    rate_limiter.check_every_n_seconds = (1 : ℚ) / 10 ∧
    ∀ (clar : String → Option ClarifyWithUser)
      (brief : String → Option ResearchQuestion),
      (init_chat_model clar brief).config.limiter = rate_limiter := by
  refine ⟨rfl, rfl, fun _ _ => rfl⟩

/-- C5: every merge of a node update into the state extends `messages` by
appending the update's new messages — the existing sequence is kept as a
prefix, never rewritten, reordered or truncated — and hence over a whole
completed invocation the final `messages` extends the input conversation. -/
theorem messages_append_only (s : AgentState) (u : StateUpdate) (m : ChatModel)
    (d : String) (input : List Message) :
    (apply_update s u).messages = s.messages ++ u.messages ∧
    (∀ t, scope_research m d input = some t →
      ∃ suffix, t.messages = input ++ suffix) := by
  refine ⟨rfl, fun t ht => ?_⟩
  rw [scope_research_eq] at ht
  cases ho : m.clarify_oracle (clarify_with_user_instructions
      (get_buffer_string input) d) with
  | none => rw [ho] at ht; exact absurd ht (by simp)
  | some resp =>
    rw [ho] at ht
    by_cases hn : resp.need_clarification
    · simp [hn] at ht
      exact ⟨[Message.mk Role.ai resp.question], by rw [← ht]⟩
    · simp [hn] at ht
      cases hb : m.brief_oracle (transform_messages_into_research_topic_prompt
          (get_buffer_string (input ++ [Message.mk Role.ai resp.verification])) d) with
      | none => rw [hb] at ht; exact absurd ht (by simp)
      | some r =>
        rw [hb] at ht
        simp at ht
        exact ⟨[Message.mk Role.ai resp.verification], by rw [← ht]⟩

/-- C1: a completed invocation on a non-empty input conversation ends in
exactly one of the two terminal shapes — clarification requested (a question
appended, no brief) or brief produced — and the two exclude each other. -/
theorem scope_terminal_outcome_dichotomy (m : ChatModel) (d : String)
    (input : List Message) (s : AgentState) (hne : input ≠ [])
    (h : scope_research m d input = some s) :
    Xor' (clarification_outcome input s) (brief_outcome input s) := by
  rw [scope_research_eq] at h
  cases ho : m.clarify_oracle (clarify_with_user_instructions
      (get_buffer_string input) d) with
  | none => rw [ho] at h; exact absurd h (by simp)
  | some resp =>
    rw [ho] at h
    cases hn : resp.need_clarification with
    | true =>
      simp [hn] at h
      refine Or.inl ⟨⟨⟨resp.question, by rw [← h]⟩, by rw [← h]⟩, ?_⟩
      rintro ⟨-, b, hbr⟩
      rw [← h] at hbr
      simp at hbr
    | false =>
      simp [hn] at h
      cases hbm : m.brief_oracle (transform_messages_into_research_topic_prompt
          (get_buffer_string (input ++ [Message.mk Role.ai resp.verification])) d) with
      | none => rw [hbm] at h; exact absurd h (by simp)
      | some r =>
        rw [hbm] at h
        simp at h
        refine Or.inr ⟨⟨⟨resp.verification, by rw [← h]⟩,
          ⟨r.research_brief, by rw [← h]⟩⟩, ?_⟩
        rintro ⟨-, hnone⟩
        rw [← h] at hnone
        simp at hnone

/-- A model whose clarification decision says no clarification is needed and
whose brief response is the empty string. -/
def empty_brief_model : ChatModel := init_chat_model
  (fun _ => some { need_clarification := false
                   question := "Which topic do you mean?"
                   verification := "Starting research." })
  (fun _ => some { research_brief := "" })

/-- C2, counterexample: nothing forces the model-produced brief to be
non-empty — with a brief response of `""` the invocation completes with
`research_brief` set to the empty string, refuting "research_brief set to a
non-empty string". -/
theorem scope_brief_nonempty_refuted :
    ¬ (∀ s, scope_research empty_brief_model "Sun Oct 12, 2025"
        [Message.mk Role.human "Summarize recent news on X"] = some s →
        ∃ b, s.research_brief = some b ∧ b ≠ "") := by
  intro h
  obtain ⟨b, hb, hbne⟩ := h _ rfl
  have hb2 : (some "" : Option String) = some b := hb
  exact hbne (Option.some.inj hb2).symm

/-- C2, amended: when the clarification decision's `need_clarification` is
false and the invocation completes, `messages` grows by exactly one assistant
entry whose content is the decision's `verification`, `research_brief` is set
to the model-produced brief string (not guaranteed non-empty), and
`supervisor_messages` holds exactly one entry whose content is the brief
concatenated with a period. -/
theorem scope_brief_path_final_state (m : ChatModel) (d : String)
    (input : List Message) (resp : ClarifyWithUser) (s : AgentState)
    (hc : m.clarify_oracle (clarify_with_user_instructions
      (get_buffer_string input) d) = some resp)
    (hn : resp.need_clarification = false)
    (h : scope_research m d input = some s) :
    s.messages = input ++ [Message.mk Role.ai resp.verification] ∧
    ∃ b, s.research_brief = some b ∧
      s.supervisor_messages = [Message.mk Role.human (b ++ ".")] := by
  rw [scope_research_eq, hc] at h
  simp [hn] at h
  cases hbm : m.brief_oracle (transform_messages_into_research_topic_prompt
      (get_buffer_string (input ++ [Message.mk Role.ai resp.verification])) d) with
  | none => rw [hbm] at h; exact absurd h (by simp)
  | some r =>
    rw [hbm] at h
    simp at h
    exact ⟨by rw [← h], r.research_brief, by rw [← h], by rw [← h]⟩

/-- C4: over any completed invocation's update trace, at most one update
carries a `research_brief` value, every update that does comes from the
`write_research_brief` node, and that node appears in the trace only when the
clarification decision returned `need_clarification = false`. -/
theorem research_brief_single_writer (m : ChatModel) (d : String)
    (input : List Message) (tr : List (String × StateUpdate))
    (h : scope_research_trace m d input = some tr) :
    (tr.filter fun p => p.2.research_brief.isSome).length ≤ 1 ∧
    (∀ p ∈ tr, p.2.research_brief.isSome → p.1 = brief_name) ∧
    (brief_name ∈ tr.map Prod.fst →
      ∃ resp, m.clarify_oracle (clarify_with_user_instructions
          (get_buffer_string input) d) = some resp ∧
        resp.need_clarification = false) := by
  rw [scope_research_trace_eq] at h
  cases ho : m.clarify_oracle (clarify_with_user_instructions
      (get_buffer_string input) d) with
  | none => rw [ho] at h; exact absurd h (by simp)
  | some resp =>
    rw [ho] at h
    cases hn : resp.need_clarification with
    | true =>
      simp [hn] at h
      subst h
      refine ⟨by simp, ?_, ?_⟩
      · intro p hp hsome
        simp at hp
        subst hp
        simp at hsome
      · intro hmem
        simp at hmem
        exact absurd hmem (by decide)
    | false =>
      simp [hn] at h
      cases hbm : m.brief_oracle (transform_messages_into_research_topic_prompt
          (get_buffer_string (input ++ [Message.mk Role.ai resp.verification])) d) with
      | none => rw [hbm] at h; exact absurd h (by simp)
      | some r =>
        rw [hbm] at h
        simp at h
        subst h
        refine ⟨by simp, ?_, fun _ => ⟨resp, rfl, hn⟩⟩
        intro p hp hsome
        simp at hp
        rcases hp with hp | hp
        · subst hp; simp at hsome
        · subst hp; rfl

/-- C6: when a model call fails at either node — the clarification call, or
the brief call reached after a no-clarification decision — the invocation
returns no state at all: no partial update is observable. -/
theorem model_failure_returns_no_state (m : ChatModel) (d : String)
    (input : List Message)
    (h : m.clarify_oracle (clarify_with_user_instructions
        (get_buffer_string input) d) = none ∨
      ∃ resp, m.clarify_oracle (clarify_with_user_instructions
          (get_buffer_string input) d) = some resp ∧
        resp.need_clarification = false ∧
        m.brief_oracle (transform_messages_into_research_topic_prompt
          (get_buffer_string (input ++ [Message.mk Role.ai resp.verification])) d)
          = none) :
    scope_research m d input = none := by
  rw [scope_research_eq]
  rcases h with h | ⟨resp, hc, hn, hb⟩
  · rw [h]
  · rw [hc]
    simp [hn, hb]

/-- C9: on the no-clarification path, the brief node's prompt is rendered
from the conversation with the verification message already appended — the
whole invocation reduces to the brief oracle applied to the prompt built from
`input ++ [verification]`. -/
theorem brief_prompt_sees_verification (m : ChatModel) (d : String)
    (input : List Message) (resp : ClarifyWithUser)
    (hc : m.clarify_oracle (clarify_with_user_instructions
      (get_buffer_string input) d) = some resp)
    (hn : resp.need_clarification = false) :
    scope_research m d input =
      (m.brief_oracle (transform_messages_into_research_topic_prompt
          (get_buffer_string (input ++ [Message.mk Role.ai resp.verification])) d)).map
        fun r =>
          { messages := input ++ [Message.mk Role.ai resp.verification]
            research_brief := some r.research_brief
            supervisor_messages := [Message.mk Role.human (r.research_brief ++ ".")]
            raw_notes := []
            notes := []
            final_report := none } := by
  rw [scope_research_eq, hc]
  simp only [hn, Bool.false_eq_true, if_false]
  cases m.brief_oracle (transform_messages_into_research_topic_prompt
      (get_buffer_string (input ++ [Message.mk Role.ai resp.verification])) d) <;>
    simp

/-- C10: each node's update is frame-respecting — merging the clarification
node's update changes nothing but `messages` (in particular `raw_notes`,
`notes`, `final_report`, `research_brief` and `supervisor_messages` keep
their values), and merging the brief node's update changes nothing but
`research_brief` and `supervisor_messages` (in particular `messages`,
`raw_notes`, `notes` and `final_report` keep their values). -/
theorem node_update_frame (m : ChatModel) (d : String) (s : AgentState)
    (cmd : Command) (u : StateUpdate)
    (hc : clarify_with_user m d s = some cmd)
    (hw : write_research_brief m d s = some u) :
    (apply_update s cmd.update).raw_notes = s.raw_notes ∧
    (apply_update s cmd.update).notes = s.notes ∧
    (apply_update s cmd.update).final_report = s.final_report ∧
    (apply_update s cmd.update).research_brief = s.research_brief ∧
    (apply_update s cmd.update).supervisor_messages = s.supervisor_messages ∧
    (apply_update s u).raw_notes = s.raw_notes ∧
    (apply_update s u).notes = s.notes ∧
    (apply_update s u).final_report = s.final_report ∧
    (apply_update s u).messages = s.messages := by
  unfold clarify_with_user at hc
  unfold write_research_brief at hw
  cases ho : m.clarify_oracle (clarify_with_user_instructions
      (get_buffer_string s.messages) d) with
  | none => rw [ho] at hc; exact absurd hc (by simp)
  | some resp =>
    rw [ho] at hc
    cases hbm : m.brief_oracle (transform_messages_into_research_topic_prompt
        (get_buffer_string s.messages) d) with
    | none => rw [hbm] at hw; exact absurd hw (by simp)
    | some r =>
      rw [hbm] at hw
      simp at hw
      subst hw
      cases hn : resp.need_clarification <;>
        · simp [hn] at hc
          subst hc
          simp [apply_update]

/-! ## Concrete instances for the witnesses -/

/-- A client whose clarification decision asks a question. -/
def demo_clarify_yes : ChatModel := init_chat_model
  (fun _ => some { need_clarification := true
                   question := "Which topic do you mean?"
                   verification := "Research will start." })
  (fun _ => some { research_brief := "Research recent news about X" })

/-- A client whose clarification decision lets research proceed. -/
def demo_clarify_no : ChatModel := init_chat_model
  (fun _ => some { need_clarification := false
                   question := "Which topic do you mean?"
                   verification := "Research will start." })
  (fun _ => some { research_brief := "Research recent news about X" })

/-- A client whose every model call fails. -/
def demo_fatal_model : ChatModel := init_chat_model (fun _ => none) (fun _ => none)

/-- A one-message input conversation. -/
def demo_input : List Message := [Message.mk Role.human "Summarize recent news on X"]

/-- A fixed current date. -/
def demo_date : String := "Sun Oct 12, 2025"

/-- The final state of `demo_clarify_yes` on `demo_input`. -/
def demo_clarified_state : AgentState :=
  { messages := demo_input ++ [Message.mk Role.ai "Which topic do you mean?"]
    research_brief := none
    supervisor_messages := []
    raw_notes := []
    notes := []
    final_report := none }

/-- The final state of `demo_clarify_no` on `demo_input`. -/
def demo_brief_state : AgentState :=
  { messages := demo_input ++ [Message.mk Role.ai "Research will start."]
    research_brief := some "Research recent news about X"
    supervisor_messages := [Message.mk Role.human "Research recent news about X."]
    raw_notes := []
    notes := []
    final_report := none }

/-- The update trace of `demo_clarify_no` on `demo_input`. -/
def demo_trace : List (String × StateUpdate) :=
  [(clarify_name, { messages := [Message.mk Role.ai "Research will start."] }),
   (brief_name, { research_brief := some "Research recent news about X"
                  supervisor_messages :=
                    [Message.mk Role.human "Research recent news about X."] })]

/-- A state with every coordination field already populated. -/
def demo_state_rich : AgentState :=
  { messages := demo_input
    research_brief := some "stale brief"
    supervisor_messages := [Message.mk Role.human "stale"]
    raw_notes := ["raw"]
    notes := ["note"]
    final_report := some "old report" }

/-- The command `clarify_with_user` returns on `demo_state_rich` under
`demo_clarify_no`. -/
def demo_cmd : Command :=
  { goto := Goto.write_research_brief_node
    update := { messages := [Message.mk Role.ai "Research will start."] } }

/-- The update `write_research_brief` returns on `demo_state_rich` under
`demo_clarify_no`. -/
def demo_update : StateUpdate :=
  { research_brief := some "Research recent news about X"
    supervisor_messages := [Message.mk Role.human "Research recent news about X."] }

/-- Witness for C1 at a concrete model, date and input. -/
theorem scope_terminal_outcome_dichotomy_witness :
    Xor' (clarification_outcome demo_input demo_clarified_state)
      (brief_outcome demo_input demo_clarified_state) :=
  scope_terminal_outcome_dichotomy demo_clarify_yes demo_date demo_input
    demo_clarified_state (by decide) rfl

/-- Witness for the amended C2 at a concrete model, date and input. -/
theorem scope_brief_path_final_state_witness :
    demo_brief_state.messages =
      demo_input ++ [Message.mk Role.ai "Research will start."] ∧
    ∃ b, demo_brief_state.research_brief = some b ∧
      demo_brief_state.supervisor_messages = [Message.mk Role.human (b ++ ".")] :=
  scope_brief_path_final_state demo_clarify_no demo_date demo_input
    { need_clarification := false
      question := "Which topic do you mean?"
      verification := "Research will start." }
    demo_brief_state rfl rfl rfl

/-- Witness for C3 at a concrete model, date and input. -/
theorem scope_clarification_path_final_state_witness :
    scope_research demo_clarify_yes demo_date demo_input = some
      { messages := demo_input ++ [Message.mk Role.ai "Which topic do you mean?"]
        research_brief := none
        supervisor_messages := []
        raw_notes := []
        notes := []
        final_report := none } :=
  scope_clarification_path_final_state demo_clarify_yes demo_date demo_input
    { need_clarification := true
      question := "Which topic do you mean?"
      verification := "Research will start." } rfl rfl

/-- Witness for C4 at a concrete model, date and input. -/
theorem research_brief_single_writer_witness :
    (demo_trace.filter fun p => p.2.research_brief.isSome).length ≤ 1 ∧
    (∀ p ∈ demo_trace, p.2.research_brief.isSome → p.1 = brief_name) ∧
    (brief_name ∈ demo_trace.map Prod.fst →
      ∃ resp, demo_clarify_no.clarify_oracle (clarify_with_user_instructions
          (get_buffer_string demo_input) demo_date) = some resp ∧
        resp.need_clarification = false) :=
  research_brief_single_writer demo_clarify_no demo_date demo_input demo_trace rfl

/-- Witness for C6 at a concrete failing model. -/
theorem model_failure_returns_no_state_witness :
    scope_research demo_fatal_model demo_date demo_input = none :=
  model_failure_returns_no_state demo_fatal_model demo_date demo_input (Or.inl rfl)

/-- Witness for C7: two states sharing `messages` but differing on every
other field get the same command. -/
theorem clarify_depends_only_on_messages_witness :
    clarify_with_user demo_clarify_yes demo_date (initial_state demo_input) =
      clarify_with_user demo_clarify_yes demo_date demo_state_rich :=
  clarify_depends_only_on_messages demo_clarify_yes demo_date
    (initial_state demo_input) demo_state_rich rfl

/-- Witness for C9 at a concrete model, date and input. -/
theorem brief_prompt_sees_verification_witness :
    scope_research demo_clarify_no demo_date demo_input =
      (demo_clarify_no.brief_oracle (transform_messages_into_research_topic_prompt
          (get_buffer_string (demo_input ++ [Message.mk Role.ai "Research will start."]))
          demo_date)).map
        fun r =>
          { messages := demo_input ++ [Message.mk Role.ai "Research will start."]
            research_brief := some r.research_brief
            supervisor_messages := [Message.mk Role.human (r.research_brief ++ ".")]
            raw_notes := []
            notes := []
            final_report := none } :=
  brief_prompt_sees_verification demo_clarify_no demo_date demo_input
    { need_clarification := false
      question := "Which topic do you mean?"
      verification := "Research will start." } rfl rfl

/-- Witness for C10 at a concrete model, date and populated state. -/
theorem node_update_frame_witness :
    (apply_update demo_state_rich demo_cmd.update).raw_notes
        = demo_state_rich.raw_notes ∧
    (apply_update demo_state_rich demo_cmd.update).notes
        = demo_state_rich.notes ∧
    (apply_update demo_state_rich demo_cmd.update).final_report
        = demo_state_rich.final_report ∧
    (apply_update demo_state_rich demo_cmd.update).research_brief
        = demo_state_rich.research_brief ∧
    (apply_update demo_state_rich demo_cmd.update).supervisor_messages
        = demo_state_rich.supervisor_messages ∧
    (apply_update demo_state_rich demo_update).raw_notes
        = demo_state_rich.raw_notes ∧
    (apply_update demo_state_rich demo_update).notes
        = demo_state_rich.notes ∧
    (apply_update demo_state_rich demo_update).final_report
        = demo_state_rich.final_report ∧
    (apply_update demo_state_rich demo_update).messages
        = demo_state_rich.messages :=
  node_update_frame demo_clarify_no demo_date demo_state_rich demo_cmd
    demo_update rfl rfl

end Scope
